import Mathlib

/-!
Verification development for the Leukemia-detection repository.

This file gives a shallow embedding in Lean 4 of the inference core of the
repository: the CvT-style backbone in `model.py` (`SEBlock`,
`ConvolutionalTokenEmbedding`, `SparseSelfAttention`,
`ConvolutionalTransformerBlock`, `DropBlock2D`, `LeukemiaCvTModel`) and the
post-processing pipeline in `predict.py` (`LeukemiaPredictor.predict_image`).

Modelling conventions:
* Tensors are total functions `Fin d₁ → ... → Fin dₙ → ℚ`; the shape of a
  tensor is carried by its type.
* Floating-point scalars are modelled by exact rationals `ℚ`.  The
  transcendental functions used by the network (`exp` inside softmax and
  sigmoid, `sqrt` inside layer norm, `erf` inside GELU) are irrational, so
  they are replaced by computable rational stand-ins (`pexp`, `psqrt`,
  `pgelu`); every verified property depends at most on their positivity,
  never on their particular values.
* Fallible code (the windowed-attention shape check, image decoding) is
  modelled with `Except`.
* Randomness (`torch.rand` inside `DropBlock2D`) is modelled by an explicit
  stream of samples passed as a function argument, and the training /
  inference mode flag of `nn.Module` is passed explicitly.
-/

/-- Computable strictly positive stand-in for the real exponential function
used by softmax and sigmoid.  Only positivity and `pexp 0 = 1` matter for any
verified property. -/
def pexp (x : ℚ) : ℚ := if 0 ≤ x then 1 + x else 1 / (1 - x)

/-- Computable nonnegative stand-in for the real square root used inside
layer normalisation (`torch.nn.LayerNorm`).  No verified property depends on
its values. -/
def psqrt (x : ℚ) : ℚ := if 0 ≤ x then 1 + x / 2 else 0

/-- `torch.sigmoid`, over the rational stand-in `pexp`. -/
def sigmoidQ (x : ℚ) : ℚ := 1 / (1 + pexp (-x))

/-- `torch.relu`. -/
def reluQ (x : ℚ) : ℚ := max 0 x

/-- Stand-in for `torch.nn.GELU` (the exact erf-based GELU is irrational);
modelled by the standard sigmoid approximation.  No verified property
depends on its values. -/
def pgelu (x : ℚ) : ℚ := x * sigmoidQ (1702 / 1000 * x)

/-- `torch.nn.Linear In Out`: `y = W x + b`, with weight `w : Out × In` and
bias `bias : Out`. -/
def linearQ (In Out : ℕ) (w : Fin Out → Fin In → ℚ) (bias : Fin Out → ℚ)
    (v : Fin In → ℚ) : Fin Out → ℚ :=
  fun o => (∑ i, w o i * v i) + bias o

/-- `torch.nn.LayerNorm C` over a channel vector (biased variance, eps = 1e-5,
learned scale `g` and shift `b`); the real square root is modelled by
`psqrt`. -/
def layerNormQ (C : ℕ) (g b : Fin C → ℚ) (v : Fin C → ℚ) : Fin C → ℚ :=
  let mu := (∑ c, v c) / C
  let v2 := (∑ c, (v c - mu) ^ 2) / C
  fun c => (v c - mu) / psqrt (v2 + 1 / 100000) * g c + b c

/-- `torch.softmax` over one axis, with `pexp` standing in for the real
exponential. -/
def softmaxQ (m : ℕ) (f : Fin m → ℚ) : Fin m → ℚ :=
  fun i => pexp (f i) / ∑ j, pexp (f j)

theorem pexp_pos (x : ℚ) : 0 < pexp x := by
  unfold pexp
  split
  · linarith
  · rename_i h
    have : (0 : ℚ) < 1 - x := by linarith [not_le.mp h]
    exact div_pos one_pos this

theorem sigmoidQ_pos (x : ℚ) : 0 < sigmoidQ x := by
  unfold sigmoidQ
  have := pexp_pos (-x)
  exact div_pos one_pos (by linarith)

theorem sigmoidQ_lt_one (x : ℚ) : sigmoidQ x < 1 := by
  unfold sigmoidQ
  have := pexp_pos (-x)
  rw [div_lt_one (by linarith)]
  linarith

theorem softmaxQ_pos (m : ℕ) (f : Fin m → ℚ) (i : Fin m) : 0 < softmaxQ m f i := by
  unfold softmaxQ
  exact div_pos (pexp_pos _) (Finset.sum_pos (fun j _ => pexp_pos _) ⟨i, Finset.mem_univ i⟩)

theorem softmaxQ_sum (m : ℕ) (hm : 0 < m) (f : Fin m → ℚ) :
    ∑ i, softmaxQ m f i = 1 := by
  unfold softmaxQ
  have hpos : 0 < ∑ j, pexp (f j) :=
    Finset.sum_pos (fun j _ => pexp_pos _) ⟨⟨0, hm⟩, Finset.mem_univ _⟩
  rw [← Finset.sum_div, div_self (ne_of_gt hpos)]

/-! ## `SEBlock` (model.py lines 6-20)

Squeeze-and-excitation channel recalibration.  The learned state is the two
bias-free linear maps `fc1 : C → M` and `fc2 : M → C` where the source fixes
`M = C // reduction`. -/

structure SEBlock (C M : ℕ) where
  fc1 : Fin M → Fin C → ℚ
  fc2 : Fin C → Fin M → ℚ

/-- `SEBlock.forward`: global average pool to `[B, C]`, bottleneck
`fc1`/ReLU/`fc2`/sigmoid, then per-channel rescale of the input.  The output
shape `[B, C, H, W]` equals the input shape by the return type. -/
def SEBlock.forward (B C M H W : ℕ) (m : SEBlock C M)
    (x : Fin B → Fin C → Fin H → Fin W → ℚ) :
    Fin B → Fin C → Fin H → Fin W → ℚ :=
  let y0 : Fin B → Fin C → ℚ := fun b c => (∑ i, ∑ j, x b c i j) / ((H : ℚ) * (W : ℚ))
  let y1 : Fin B → Fin M → ℚ := fun b mm => reluQ (∑ c, m.fc1 mm c * y0 b c)
  let y2 : Fin B → Fin C → ℚ := fun b c => sigmoidQ (∑ mm, m.fc2 c mm * y1 b mm)
  fun b c i j => x b c i j * y2 b c

/-- The per-channel gate of `SEBlock.forward`, as the spec describes the
channel-recalibration unit: global-average-pool, two-layer bottleneck, and
sigmoid. -/
def SEBlock.gate (B C M H W : ℕ) (m : SEBlock C M)
    (x : Fin B → Fin C → Fin H → Fin W → ℚ) (b : Fin B) (c : Fin C) : ℚ :=
  sigmoidQ (∑ mm, m.fc2 c mm *
    reluQ (∑ c', m.fc1 mm c' * ((∑ i, ∑ j, x b c' i j) / ((H : ℚ) * (W : ℚ)))))

/-- C6: for every 4-dimensional input tensor `[B, C, H, W]`,
`SEBlock.forward` returns a tensor of the same shape `[B, C, H, W]` (the
channel count is unchanged — this is recorded by the return type of
`SEBlock.forward`), and every output entry is the corresponding input entry
rescaled by the per-channel gate obtained from global-average-pool, two-layer
bottleneck and sigmoid; the sigmoid gate lies strictly between 0 and 1. -/
theorem C6_se_block_shape_and_gate (B C M H W : ℕ) (m : SEBlock C M)
    (x : Fin B → Fin C → Fin H → Fin W → ℚ) (b : Fin B) (c : Fin C)
    (i : Fin H) (j : Fin W) :
    SEBlock.forward B C M H W m x b c i j = x b c i j * SEBlock.gate B C M H W m x b c ∧
    0 < SEBlock.gate B C M H W m x b c ∧ SEBlock.gate B C M H W m x b c < 1 := by
  refine ⟨rfl, sigmoidQ_pos _, sigmoidQ_lt_one _⟩

/-! ## `SparseSelfAttention` (model.py lines 39-69)

Windowed self-attention.  The learned state is the `qkv` and `proj` linear
maps.  The source also stores `num_heads`, `window_size` and
`scale = (dim // num_heads) ** -0.5`; head count `Hh`, head dimension `Dh`
(with `dim = Hh * Dh`) and window size `W` are type-level parameters here,
and `scale` — an irrational real in general — is kept as a rational field
(no verified property depends on its value).

The source raises
`ValueError(f"Input sequence length N (≈N) must be divisible by window_size (≈W)")`
when `N % W ≠ 0`; this is modelled by `Except.error` carrying a `ShapeError`
value recording both offending dimensions, rendered by `shapeErrMsg`. -/

structure ShapeError where
  seqLen : ℕ
  winSize : ℕ

/-- The message of the `ValueError` raised by `SparseSelfAttention.forward`,
identifying both offending dimensions. -/
def shapeErrMsg (e : ShapeError) : String :=
  "Input sequence length N (" ++ toString e.seqLen ++
    ") must be divisible by window_size (" ++ toString e.winSize ++ ")"

structure SparseSelfAttention (C : ℕ) where
  scale : ℚ
  qkvW : Fin (3 * C) → Fin C → ℚ
  qkvB : Fin (3 * C) → ℚ
  projW : Fin C → Fin C → ℚ
  projB : Fin C → ℚ

theorem head_idx_lt (Hh Dh : ℕ) (h : Fin Hh) (d : Fin Dh) :
    h.val * Dh + d.val < Hh * Dh :=
  calc h.val * Dh + d.val < h.val * Dh + Dh := Nat.add_lt_add_left d.isLt _
    _ = (h.val + 1) * Dh := by ring
    _ ≤ Hh * Dh := Nat.mul_le_mul_right _ h.isLt

/-- Index of slot `(j, h, d)` in the flattened `qkv` output of one token:
the reshape `(B, N, 3C) → (B, N, 3, Hh, Dh)` makes `j` (query/key/value)
outermost, then head `h`, then head-channel `d`. -/
def qkvIdx (Hh Dh : ℕ) (j : Fin 3) (h : Fin Hh) (d : Fin Dh) :
    Fin (3 * (Hh * Dh)) :=
  ⟨j.val * (Hh * Dh) + (h.val * Dh + d.val), by
    calc j.val * (Hh * Dh) + (h.val * Dh + d.val)
        < j.val * (Hh * Dh) + Hh * Dh := Nat.add_lt_add_left (head_idx_lt Hh Dh h d) _
      _ = (j.val + 1) * (Hh * Dh) := by ring
      _ ≤ 3 * (Hh * Dh) := Nat.mul_le_mul_right _ j.isLt⟩

theorem window_token_lt (N W : ℕ) (hW : N % W = 0) (n : Fin N) (s : Fin W) :
    n.val / W * W + s.val < N := by
  have hdvd : W ∣ N := Nat.dvd_of_mod_eq_zero hW
  calc n.val / W * W + s.val < n.val / W * W + W := Nat.add_lt_add_left s.isLt _
    _ = (n.val / W + 1) * W := by ring
    _ ≤ N / W * W :=
        Nat.mul_le_mul_right _ (Nat.succ_le_of_lt (Nat.div_lt_div_of_lt_of_dvd hdvd n.isLt))
    _ = N := Nat.div_mul_cancel hdvd

/-- Token `s` of the window containing token `n` (the view
`(B, Hh, N, Dh) → (B, Hh, N/W, W, Dh)` maps window `g`, slot `s` to token
`g * W + s`). -/
def windowTok (N W : ℕ) (hW : N % W = 0) (n : Fin N) (s : Fin W) : Fin N :=
  ⟨n.val / W * W + s.val, window_token_lt N W hW n s⟩

/-- The `qkv` linear projection of token `n` (source line 50, before the
reshape). -/
def SparseSelfAttention.qkvOut (B N Hh Dh : ℕ) (m : SparseSelfAttention (Hh * Dh))
    (x : Fin B → Fin N → Fin (Hh * Dh) → ℚ) (b : Fin B) (n : Fin N) :
    Fin (3 * (Hh * Dh)) → ℚ :=
  linearQ (Hh * Dh) (3 * (Hh * Dh)) m.qkvW m.qkvB (x b n)

/-- Per-head windowed attention value at batch `b`, head `h`, token `n`,
head-channel `d`: scaled dot-product scores of token `n` against the `W`
tokens of its own window, softmax-normalised, applied to the values of those
tokens (source lines 61-66, the entries of `attn @ v` in shape
`(B, Hh, N/W, W, Dh)` with `(N/W, W)` re-fused into the token axis). -/
def SparseSelfAttention.windowOut (B N Hh Dh W : ℕ) (m : SparseSelfAttention (Hh * Dh))
    (x : Fin B → Fin N → Fin (Hh * Dh) → ℚ) (hW : N % W = 0)
    (b : Fin B) (h : Fin Hh) (n : Fin N) (d : Fin Dh) : ℚ :=
  ∑ s : Fin W,
    softmaxQ W (fun s' =>
      (∑ d' : Fin Dh,
        SparseSelfAttention.qkvOut B N Hh Dh m x b n (qkvIdx Hh Dh 0 h d') *
        SparseSelfAttention.qkvOut B N Hh Dh m x b (windowTok N W hW n s') (qkvIdx Hh Dh 1 h d')) *
      m.scale) s *
    SparseSelfAttention.qkvOut B N Hh Dh m x b (windowTok N W hW n s) (qkvIdx Hh Dh 2 h d)

theorem mergeIdx_h_lt (N Hh Dh : ℕ) (n : Fin N) (c : Fin (Hh * Dh)) :
    (n.val * (Hh * Dh) + c.val) / (N * Dh) < Hh := by
  have hc : 0 < Hh * Dh := c.pos
  have hDh : 0 < Dh := by
    rcases Nat.eq_zero_or_pos Dh with h0 | h
    · rw [h0, Nat.mul_zero] at hc; exact absurd hc (lt_irrefl 0)
    · exact h
  have hN : 0 < N := n.pos
  rw [Nat.div_lt_iff_lt_mul (Nat.mul_pos hN hDh)]
  calc n.val * (Hh * Dh) + c.val < n.val * (Hh * Dh) + Hh * Dh := Nat.add_lt_add_left c.isLt _
    _ = (n.val + 1) * (Hh * Dh) := by ring
    _ ≤ N * (Hh * Dh) := Nat.mul_le_mul_right _ n.isLt
    _ = Hh * (N * Dh) := by ring

theorem mergeIdx_tok_lt (N Hh Dh : ℕ) (n : Fin N) (c : Fin (Hh * Dh)) :
    (n.val * (Hh * Dh) + c.val) % (N * Dh) / Dh < N := by
  have hc : 0 < Hh * Dh := c.pos
  have hDh : 0 < Dh := by
    rcases Nat.eq_zero_or_pos Dh with h0 | h
    · rw [h0, Nat.mul_zero] at hc; exact absurd hc (lt_irrefl 0)
    · exact h
  have hN : 0 < N := n.pos
  rw [Nat.div_lt_iff_lt_mul hDh]
  exact Nat.mod_lt _ (Nat.mul_pos hN hDh)

theorem mergeIdx_d_lt (N Hh Dh : ℕ) (n : Fin N) (c : Fin (Hh * Dh)) :
    (n.val * (Hh * Dh) + c.val) % Dh < Dh := by
  have hc : 0 < Hh * Dh := c.pos
  have hDh : 0 < Dh := by
    rcases Nat.eq_zero_or_pos Dh with h0 | h
    · rw [h0, Nat.mul_zero] at hc; exact absurd hc (lt_irrefl 0)
    · exact h
  exact Nat.mod_lt _ hDh

/-- `SparseSelfAttention.forward` (source lines 48-69).  When
`N % W ≠ 0` the call fails with the `ShapeError` recording `N` and `W`
(source line 59) and produces no output.  Otherwise the per-head windowed
attention values, laid out as `(B, Hh, N/W, W, Dh)`, are reshaped *directly*
to `(B, N, C)` — the source performs `(attn @ v).reshape(B, N, C)` without
first transposing the head axis back next to the head-channel axis, so the
flat offset `n * C + c` of an output entry is decomposed row-major over
`(Hh, N, Dh)` — and passed through the final `proj` linear map. -/
def SparseSelfAttention.forward (B N Hh Dh W : ℕ) (m : SparseSelfAttention (Hh * Dh))
    (x : Fin B → Fin N → Fin (Hh * Dh) → ℚ) :
    Except ShapeError (Fin B → Fin N → Fin (Hh * Dh) → ℚ) :=
  if hW : N % W = 0 then
    Except.ok (fun b n c =>
      linearQ (Hh * Dh) (Hh * Dh) m.projW m.projB
        (fun c' =>
          SparseSelfAttention.windowOut B N Hh Dh W m x hW b
            ⟨(n.val * (Hh * Dh) + c'.val) / (N * Dh), mergeIdx_h_lt N Hh Dh n c'⟩
            ⟨(n.val * (Hh * Dh) + c'.val) % (N * Dh) / Dh, mergeIdx_tok_lt N Hh Dh n c'⟩
            ⟨(n.val * (Hh * Dh) + c'.val) % Dh, mergeIdx_d_lt N Hh Dh n c'⟩)
        c)
  else Except.error ⟨N, W⟩

/-- C2: for every token-sequence input `[B, N, C]` with `N` not an exact
multiple of the window size `W`, `SparseSelfAttention.forward` fails with the
`ShapeError` recording the offending dimensions `N` and `W` (whose rendered
message names both), and produces no output (the result is `Except.error`,
never `Except.ok`, so nothing is truncated or padded). -/
theorem C2_attention_rejects_indivisible (B N Hh Dh W : ℕ)
    (m : SparseSelfAttention (Hh * Dh)) (x : Fin B → Fin N → Fin (Hh * Dh) → ℚ)
    (h : N % W ≠ 0) :
    SparseSelfAttention.forward B N Hh Dh W m x = Except.error ⟨N, W⟩ ∧
    shapeErrMsg ⟨N, W⟩ =
      "Input sequence length N (" ++ toString N ++
        ") must be divisible by window_size (" ++ toString W ++ ")" := by
  constructor
  · unfold SparseSelfAttention.forward
    rw [dif_neg h]
  · rfl

/-- All-zero attention parameters at embedding dimension 1, used to witness
the shape-error contract on the spec's example `N = 100`, `W = 32`. -/
def attnParamsOne : SparseSelfAttention 1 where
  scale := 1
  qkvW := fun _ _ => 0
  qkvB := fun _ => 0
  projW := fun _ _ => 0
  projB := fun _ => 0

theorem C2_witness :
    (100 % 32 ≠ 0) ∧
    SparseSelfAttention.forward 1 100 1 1 32 attnParamsOne (fun _ _ _ => 0) =
      Except.error ⟨100, 32⟩ :=
  ⟨by decide,
    (C2_attention_rejects_indivisible 1 100 1 1 32 attnParamsOne
      (fun _ _ _ => 0) (by decide)).1⟩

theorem windowTok_div (N W : ℕ) (hW : N % W = 0) (n : Fin N) (s : Fin W) :
    (windowTok N W hW n s).val / W = n.val / W := by
  unfold windowTok
  simp only
  rw [Nat.mul_comm, Nat.mul_add_div s.pos, Nat.div_eq_of_lt s.isLt, Nat.add_zero]

/-- Tokens of the same window have qkv projections that agree whenever the
two inputs agree on that window. -/
theorem qkvOut_window_congr (B N Hh Dh W : ℕ) (m : SparseSelfAttention (Hh * Dh))
    (x y : Fin B → Fin N → Fin (Hh * Dh) → ℚ) (g : ℕ)
    (hagree : ∀ (b : Fin B) (n : Fin N), n.val / W = g → ∀ c, x b n c = y b n c)
    (b : Fin B) (n : Fin N) (hn : n.val / W = g) :
    SparseSelfAttention.qkvOut B N Hh Dh m x b n =
      SparseSelfAttention.qkvOut B N Hh Dh m y b n := by
  unfold SparseSelfAttention.qkvOut
  have hxy : x b n = y b n := funext (hagree b n hn)
  rw [hxy]

/-- C7 (amended): the per-head windowed attention values are local to their
window — for every pair of inputs that agree on all tokens of the window with
index `g`, `SparseSelfAttention.windowOut` agrees at every token of that
window, for every head and head-channel.  (The end-to-end
`SparseSelfAttention.forward` does NOT have this locality at its output
token positions, because the head-merging reshape redistributes per-head
window outputs across token positions.) -/
theorem C7_amended_window_locality (B N Hh Dh W : ℕ)
    (m : SparseSelfAttention (Hh * Dh))
    (x y : Fin B → Fin N → Fin (Hh * Dh) → ℚ) (hW : N % W = 0) (g : ℕ)
    (hagree : ∀ (b : Fin B) (n : Fin N), n.val / W = g → ∀ c, x b n c = y b n c)
    (b : Fin B) (h : Fin Hh) (n : Fin N) (d : Fin Dh) (hn : n.val / W = g) :
    SparseSelfAttention.windowOut B N Hh Dh W m x hW b h n d =
      SparseSelfAttention.windowOut B N Hh Dh W m y hW b h n d := by
  have hq1 : SparseSelfAttention.qkvOut B N Hh Dh m x b n =
      SparseSelfAttention.qkvOut B N Hh Dh m y b n :=
    qkvOut_window_congr B N Hh Dh W m x y g hagree b n hn
  have hq2 : ∀ s : Fin W,
      SparseSelfAttention.qkvOut B N Hh Dh m x b (windowTok N W hW n s) =
        SparseSelfAttention.qkvOut B N Hh Dh m y b (windowTok N W hW n s) := by
    intro s
    exact qkvOut_window_congr B N Hh Dh W m x y g hagree b (windowTok N W hW n s)
      ((windowTok_div N W hW n s).trans hn)
  unfold SparseSelfAttention.windowOut
  simp only [hq1, hq2]


/-- Concrete token sequence `[1, 4, 4]` that is identically zero. -/
def xA : Fin 1 → Fin 4 → Fin 4 → ℚ := fun _ _ _ => 0

/-- Concrete token sequence `[1, 4, 4]` that is zero on window 0
(tokens 0 and 1) and nonzero only at token 2, channel 0 — i.e. only inside
window 1. -/
def xB : Fin 1 → Fin 4 → Fin 4 → ℚ := fun _ n c =>
  if n.val = 2 ∧ c.val = 0 then 2 else 0

/-- Concrete attention parameters at `dim = 4`, `num_heads = 4`, `Dh = 1`:
query and key projections are zero (so every attention distribution is
uniform), the value projection is the identity (`v = x`), the output
projection is the identity, and `scale = 1` (the exact value of
`(dim // num_heads) ** -0.5` at `Dh = 1`). -/
def attnParamsCx : SparseSelfAttention 4 where
  scale := 1
  qkvW := fun j c => if j.val = 8 + c.val then 1 else 0
  qkvB := fun _ => 0
  projW := fun c c' => if c = c' then 1 else 0
  projB := fun _ => 0

/-- Entry `(0, n, c)` of a successful attention result (0 on error). -/
def attnAt (r : Except ShapeError (Fin 1 → Fin 4 → Fin 4 → ℚ)) (n c : Fin 4) : ℚ :=
  match r with
  | Except.ok y => y 0 n c
  | Except.error _ => 0

/-- C7 is falsified by the code: with window size 2, the inputs `xA` and `xB`
agree on every token of window 0 (tokens 0 and 1), yet the outputs of
`SparseSelfAttention.forward` differ at token 0 — a position of window 0 —
because the head-merging reshape places the head-0 window-1 attention value
of token 2 into channel 2 of output token 0. -/
theorem C7_counterexample :
    (xA 0 0 0 = xB 0 0 0) ∧ (xA 0 0 1 = xB 0 0 1) ∧
    (xA 0 0 2 = xB 0 0 2) ∧ (xA 0 0 3 = xB 0 0 3) ∧
    (xA 0 1 0 = xB 0 1 0) ∧ (xA 0 1 1 = xB 0 1 1) ∧
    (xA 0 1 2 = xB 0 1 2) ∧ (xA 0 1 3 = xB 0 1 3) ∧
    attnAt (SparseSelfAttention.forward 1 4 4 1 2 attnParamsCx xA) 0 2 ≠
      attnAt (SparseSelfAttention.forward 1 4 4 1 2 attnParamsCx xB) 0 2 := by
  refine ⟨rfl, rfl, rfl, rfl, rfl, rfl, rfl, rfl, ?_⟩
  simp +decide [attnAt, SparseSelfAttention.forward,
    SparseSelfAttention.windowOut, SparseSelfAttention.qkvOut, windowTok,
    linearQ, qkvIdx, softmaxQ, pexp, xA, xB, attnParamsCx,
    Fin.sum_univ_four, Fin.sum_univ_two, Fin.sum_univ_one]

theorem C7_amended_witness :
    (4 % 2 = 0) ∧
    (∀ (b : Fin 1) (n : Fin 4), n.val / 2 = 0 → ∀ c : Fin 4, xA b n c = xB b n c) ∧
    SparseSelfAttention.windowOut 1 4 4 1 2 attnParamsCx xA rfl 0 0 0 0 =
      SparseSelfAttention.windowOut 1 4 4 1 2 attnParamsCx xB rfl 0 0 0 0 := by
  have hag : ∀ (b : Fin 1) (n : Fin 4), n.val / 2 = 0 → ∀ c : Fin 4, xA b n c = xB b n c := by
    intro b n hn c
    simp only [xA, xB]
    rw [if_neg (by omega : ¬(n.val = 2 ∧ c.val = 0))]
  exact ⟨rfl, hag,
    C7_amended_window_locality 1 4 4 1 2 attnParamsCx xA xB rfl 0 hag 0 0 0 0 (by decide)⟩

/-! ## `DropBlock2D` (model.py lines 95-111)

Structured spatial regularisation.  `torch.rand(B, 1, H, W)` is modelled by
the explicit sample stream `rand`, and `self.training` by the explicit
`training` flag.  `F.max_pool2d(mask, block_size, stride=1,
padding=block_size // 2)` is modelled by `padGet`-based dilation producing an
`H × W` map (for the odd `block_size = 3` used throughout the model the
pooled output has exactly the input's spatial shape, as the broadcasted
multiply in the source requires); implicit padding contributes 0, which for
the 0/1 seed mask agrees with the negative-infinity padding of max pooling. -/

/-- Reads a spatial map at integer coordinates, 0 outside bounds (zero
padding). -/
def padGet (H W : ℕ) (f : Fin H → Fin W → ℚ) (i j : ℤ) : ℚ :=
  if hi : 0 ≤ i ∧ i < (H : ℤ) then
    if hj : 0 ≤ j ∧ j < (W : ℤ) then
      f ⟨i.toNat, by omega⟩ ⟨j.toNat, by omega⟩
    else 0
  else 0

structure DropBlock2D where
  block_size : ℕ
  drop_prob : ℚ

/-- `DropBlock2D.forward`: identity unless training with nonzero drop
probability; otherwise sample a sparse Bernoulli(gamma) seed mask on
`(B, 1, H, W)`, dilate each seed into a `block_size × block_size` block by
max pooling, invert, and rescale the survivors by
`mask.numel() / mask.sum()` (a global factor over the whole mask tensor). -/
def DropBlock2D.forward (B C H W : ℕ) (m : DropBlock2D) (training : Bool)
    (rand : ℕ → ℕ → ℕ → ℚ) (x : Fin B → Fin C → Fin H → Fin W → ℚ) :
    Fin B → Fin C → Fin H → Fin W → ℚ :=
  if ¬ training = true ∨ m.drop_prob = 0 then x
  else
    let gamma : ℚ := m.drop_prob / ((m.block_size : ℚ) ^ 2)
    let seed : Fin B → Fin H → Fin W → ℚ := fun b i j =>
      if rand b.val i.val j.val < gamma then 1 else 0
    let dil : Fin B → Fin H → Fin W → ℚ := fun b i j =>
      (List.range m.block_size).foldr (fun ki acc => max acc
        ((List.range m.block_size).foldr (fun kj acc2 => max acc2
          (padGet H W (seed b)
            ((i : ℤ) - (m.block_size / 2 : ℕ) + ki)
            ((j : ℤ) - (m.block_size / 2 : ℕ) + kj))) 0)) 0
    let mask : Fin B → Fin H → Fin W → ℚ := fun b i j => 1 - dil b i j
    let total : ℚ := (B : ℚ) * (H : ℚ) * (W : ℚ)
    let kept : ℚ := ∑ b, ∑ i, ∑ j, mask b i j
    fun b c i j => x b c i j * mask b i j * (total / kept)

/-- C5: `DropBlock2D.forward` is a strict identity — the output tensor
equals the input tensor exactly — for every input, whenever the module is
not in training mode or the configured drop probability is 0. -/
theorem C5_dropblock_identity (B C H W : ℕ) (m : DropBlock2D) (training : Bool)
    (rand : ℕ → ℕ → ℕ → ℚ) (x : Fin B → Fin C → Fin H → Fin W → ℚ)
    (h : training = false ∨ m.drop_prob = 0) :
    DropBlock2D.forward B C H W m training rand x = x := by
  have hc : ¬ training = true ∨ m.drop_prob = 0 := by
    rcases h with h | h
    · left; simp [h]
    · right; exact h
  unfold DropBlock2D.forward
  rw [if_pos hc]

/-- The `DropBlock2D(block_size=3, drop_prob=0.1)` module instantiated by
every stage of `LeukemiaCvTModel`. -/
def dropBlockStd : DropBlock2D where
  block_size := 3
  drop_prob := 1 / 10

theorem C5_witness :
    (false = false ∨ dropBlockStd.drop_prob = 0) ∧
    DropBlock2D.forward 1 1 2 2 dropBlockStd false (fun _ _ _ => 0)
        (fun _ _ _ _ => 5) =
      (fun _ _ _ _ => 5) :=
  ⟨Or.inl rfl,
    C5_dropblock_identity 1 1 2 2 dropBlockStd false (fun _ _ _ => 0)
      (fun _ _ _ _ => 5) (Or.inl rfl)⟩

/-! ## `ConvolutionalTokenEmbedding` (model.py lines 23-36)

Depthwise `k × k` convolution (groups = in-channels, stride `s`, padding
`p`), pointwise 1×1 convolution, flatten of the spatial grid into a token
axis, and per-token layer normalisation.  The output spatial size of a
`torch.nn.Conv2d` is `(H + 2p - k) / s + 1` (floor division), captured by
`convDim`; the token at index `t` corresponds to the spatial position
`(t / W', t % W')` of the convolved grid (row-major flatten). -/

/-- Output spatial extent of a convolution with kernel `k`, stride `s`,
padding `p` on extent `H`. -/
def convDim (H k s p : ℕ) : ℕ := (H + 2 * p - k) / s + 1

structure ConvolutionalTokenEmbedding (Cin Cout k : ℕ) where
  dwW : Fin Cin → Fin k → Fin k → ℚ
  dwB : Fin Cin → ℚ
  pwW : Fin Cout → Fin Cin → ℚ
  pwB : Fin Cout → ℚ
  lnG : Fin Cout → ℚ
  lnB : Fin Cout → ℚ

/-- `ConvolutionalTokenEmbedding.forward`: token `t`, channel `co` of the
normalised token sequence (the returned `(h, w)` of the source are the
type-level `convDim H k s p` and `convDim W k s p`). -/
def ConvolutionalTokenEmbedding.forward (B Cin Cout k s p H W : ℕ)
    (m : ConvolutionalTokenEmbedding Cin Cout k)
    (x : Fin B → Fin Cin → Fin H → Fin W → ℚ) :
    Fin B → Fin (convDim H k s p * convDim W k s p) → Fin Cout → ℚ :=
  fun b t =>
    layerNormQ Cout m.lnG m.lnB (fun co =>
      (∑ ci, m.pwW co ci *
        ((∑ ki : Fin k, ∑ kj : Fin k,
          m.dwW ci ki kj *
            padGet H W (x b ci)
              ((t.val / convDim W k s p : ℕ) * (s : ℤ) - (p : ℕ) + (ki : ℕ))
              ((t.val % convDim W k s p : ℕ) * (s : ℤ) - (p : ℕ) + (kj : ℕ))) +
          m.dwB ci)) +
        m.pwB co)

theorem fold_idx_lt (H W : ℕ) (i : Fin H) (j : Fin W) : i.val * W + j.val < H * W :=
  calc i.val * W + j.val < i.val * W + W := Nat.add_lt_add_left j.isLt _
    _ = (i.val + 1) * W := by ring
    _ ≤ H * W := Nat.mul_le_mul_right _ i.isLt

/-- The `permute(0, 2, 1).reshape(b, C, h, w)` step of
`LeukemiaCvTModel.forward`: fold a token sequence back into its spatial
grid. -/
def foldTokens (B C H W : ℕ) (t : Fin B → Fin (H * W) → Fin C → ℚ) :
    Fin B → Fin C → Fin H → Fin W → ℚ :=
  fun b c i j => t b ⟨i.val * W + j.val, fold_idx_lt H W i j⟩ c

/-! ## `ConvolutionalTransformerBlock` (model.py lines 72-93)

Pre-norm attention and MLP sublayers with residual connections.  The
`torch.utils.checkpoint.checkpoint` wrappers only trade memory for
recomputation during backpropagation; for the forward pass they are
semantically the identity, so `_attn_block` and `_mlp_block` are applied
directly.  The MLP hidden width is `M = int(dim * mlp_ratio)` (`2 * dim` at
the default `mlp_ratio = 2.0`). -/

structure ConvolutionalTransformerBlock (C M : ℕ) where
  norm1G : Fin C → ℚ
  norm1B : Fin C → ℚ
  attn : SparseSelfAttention C
  norm2G : Fin C → ℚ
  norm2B : Fin C → ℚ
  mlpW1 : Fin M → Fin C → ℚ
  mlpB1 : Fin M → ℚ
  mlpW2 : Fin C → Fin M → ℚ
  mlpB2 : Fin C → ℚ

/-- `ConvolutionalTransformerBlock.forward`:
`x = x + attn(norm1(x)); x = x + mlp(norm2(x))`, propagating the
shape-contract failure of the attention sublayer. -/
def ConvolutionalTransformerBlock.forward (B N Hh Dh M Wd : ℕ)
    (m : ConvolutionalTransformerBlock (Hh * Dh) M)
    (x : Fin B → Fin N → Fin (Hh * Dh) → ℚ) :
    Except ShapeError (Fin B → Fin N → Fin (Hh * Dh) → ℚ) :=
  Except.map
    (fun a =>
      let x1 : Fin B → Fin N → Fin (Hh * Dh) → ℚ := fun b n c => x b n c + a b n c
      fun b n c => x1 b n c +
        linearQ M (Hh * Dh) m.mlpW2 m.mlpB2
          (fun mm => pgelu (linearQ (Hh * Dh) M m.mlpW1 m.mlpB1
            (layerNormQ (Hh * Dh) m.norm2G m.norm2B (x1 b n)) mm)) c)
    (SparseSelfAttention.forward B N Hh Dh Wd m.attn
      (fun b n => layerNormQ (Hh * Dh) m.norm1G m.norm1B (x b n)))

/-! ## `LeukemiaCvTModel` (model.py lines 114-168)

Three stages of token embedding, windowed transformer block, SE
recalibration and DropBlock, followed by global average pooling and the
classification head.  Stage widths 32 → 96 → 192; every attention unit has
`num_heads = 4` (the `SparseSelfAttention` default), so the head dimensions
are 8, 24, 48; window sizes 32, 32, 14; MLP hidden widths 64, 192, 384; SE
bottleneck widths `C // 16` = 2, 6, 12.  The three `DropBlock2D` modules are
constructed with `block_size = 3, drop_prob = 0.1` but are kept as fields of
the model record, mirroring the module tree. -/

structure LeukemiaCvTModel where
  stage1_embed : ConvolutionalTokenEmbedding 3 32 7
  stage1_transformer : ConvolutionalTransformerBlock 32 64
  se1 : SEBlock 32 2
  dropblock1 : DropBlock2D
  stage2_embed : ConvolutionalTokenEmbedding 32 96 3
  stage2_transformer : ConvolutionalTransformerBlock 96 192
  se2 : SEBlock 96 6
  dropblock2 : DropBlock2D
  stage3_embed : ConvolutionalTokenEmbedding 96 192 3
  stage3_transformer : ConvolutionalTransformerBlock 192 384
  se3 : SEBlock 192 12
  dropblock3 : DropBlock2D
  headG : Fin 192 → ℚ
  headB : Fin 192 → ℚ
  headW : Fin 2 → Fin 192 → ℚ
  headBias : Fin 2 → ℚ

/-- `LeukemiaCvTModel.forward` on an input `[B, 3, H, W]`: stage 1 embeds
with kernel 7 / stride 1 / padding 3, stage 2 with kernel 3 / stride 2 /
padding 1, stage 3 with kernel 3 / stride 4 / padding 1; each stage runs its
transformer block (whose attention may fail the window-divisibility
contract, propagated as `Except.error`), folds tokens back to a spatial
tensor, applies SE recalibration and DropBlock; finally the stage-3 output
is averaged over its spatial positions and passed through
`LayerNorm(192)` + `Linear(192, num_classes = 2)`.  `rand k` is the
`torch.rand` stream consumed by the stage-`k` DropBlock. -/
def LeukemiaCvTModel.forward (B H W : ℕ) (m : LeukemiaCvTModel) (training : Bool)
    (rand : ℕ → ℕ → ℕ → ℕ → ℚ)
    (x : Fin B → Fin 3 → Fin H → Fin W → ℚ) :
    Except ShapeError (Fin B → Fin 2 → ℚ) :=
  match ConvolutionalTransformerBlock.forward B (convDim H 7 1 3 * convDim W 7 1 3) 4 8 64 32
      m.stage1_transformer
      (ConvolutionalTokenEmbedding.forward B 3 32 7 1 3 H W m.stage1_embed x) with
  | Except.error e => Except.error e
  | Except.ok t1 =>
    let s1 := DropBlock2D.forward B 32 (convDim H 7 1 3) (convDim W 7 1 3) m.dropblock1
      training (rand 1)
      (SEBlock.forward B 32 2 (convDim H 7 1 3) (convDim W 7 1 3) m.se1
        (foldTokens B 32 (convDim H 7 1 3) (convDim W 7 1 3) t1))
    match ConvolutionalTransformerBlock.forward B
        (convDim (convDim H 7 1 3) 3 2 1 * convDim (convDim W 7 1 3) 3 2 1) 4 24 192 32
        m.stage2_transformer
        (ConvolutionalTokenEmbedding.forward B 32 96 3 2 1
          (convDim H 7 1 3) (convDim W 7 1 3) m.stage2_embed s1) with
    | Except.error e => Except.error e
    | Except.ok t2 =>
      let s2 := DropBlock2D.forward B 96 (convDim (convDim H 7 1 3) 3 2 1)
        (convDim (convDim W 7 1 3) 3 2 1) m.dropblock2 training (rand 2)
        (SEBlock.forward B 96 6 (convDim (convDim H 7 1 3) 3 2 1)
          (convDim (convDim W 7 1 3) 3 2 1) m.se2
          (foldTokens B 96 (convDim (convDim H 7 1 3) 3 2 1)
            (convDim (convDim W 7 1 3) 3 2 1) t2))
      match ConvolutionalTransformerBlock.forward B
          (convDim (convDim (convDim H 7 1 3) 3 2 1) 3 4 1 *
            convDim (convDim (convDim W 7 1 3) 3 2 1) 3 4 1) 4 48 384 14
          m.stage3_transformer
          (ConvolutionalTokenEmbedding.forward B 96 192 3 4 1
            (convDim (convDim H 7 1 3) 3 2 1) (convDim (convDim W 7 1 3) 3 2 1)
            m.stage3_embed s2) with
      | Except.error e => Except.error e
      | Except.ok t3 =>
        let s3 := DropBlock2D.forward B 192 (convDim (convDim (convDim H 7 1 3) 3 2 1) 3 4 1)
          (convDim (convDim (convDim W 7 1 3) 3 2 1) 3 4 1) m.dropblock3 training (rand 3)
          (SEBlock.forward B 192 12 (convDim (convDim (convDim H 7 1 3) 3 2 1) 3 4 1)
            (convDim (convDim (convDim W 7 1 3) 3 2 1) 3 4 1) m.se3
            (foldTokens B 192 (convDim (convDim (convDim H 7 1 3) 3 2 1) 3 4 1)
              (convDim (convDim (convDim W 7 1 3) 3 2 1) 3 4 1) t3))
        Except.ok (fun b c =>
          linearQ 192 2 m.headW m.headBias
            (layerNormQ 192 m.headG m.headB
              (fun ch =>
                (∑ i, ∑ j, s3 b ch i j) /
                  ((convDim (convDim (convDim H 7 1 3) 3 2 1) 3 4 1 : ℚ) *
                    (convDim (convDim (convDim W 7 1 3) 3 2 1) 3 4 1 : ℚ))))
            c)

/-- On 224 × 224 inputs every stage's token count is divisible by its window
size, so the whole forward pass succeeds, for any parameters, mode and
random stream. -/
theorem LeukemiaCvTModel.forward_224_ok (B : ℕ) (m : LeukemiaCvTModel)
    (training : Bool) (rand : ℕ → ℕ → ℕ → ℕ → ℚ)
    (x : Fin B → Fin 3 → Fin 224 → Fin 224 → ℚ) :
    ∃ y : Fin B → Fin 2 → ℚ,
      LeukemiaCvTModel.forward B 224 224 m training rand x = Except.ok y :=
  ⟨_, rfl⟩

/-- C1: for every input tensor of shape `[B, 3, 224, 224]`, the full forward
pass of the backbone plus classification head (`LeukemiaCvTModel.forward`)
returns a logits tensor of shape `[B, 2]` — one logits vector of length
exactly the configured class count 2 per sample (the length is recorded by
the type `Fin B → Fin 2 → ℚ` of the successful result), for any parameters,
mode and random stream. -/
theorem C1_forward_logits_shape (B : ℕ) (m : LeukemiaCvTModel) (training : Bool)
    (rand : ℕ → ℕ → ℕ → ℕ → ℚ) (x : Fin B → Fin 3 → Fin 224 → Fin 224 → ℚ) :
    ∃ y : Fin B → Fin 2 → ℚ,
      LeukemiaCvTModel.forward B 224 224 m training rand x = Except.ok y :=
  LeukemiaCvTModel.forward_224_ok B m training rand x

/-- C10: shape compatibility of the standard configuration — on `[B, 3, 224,
224]` inputs the three stages of `LeukemiaCvTModel` produce 50176, 12544 and
784 tokens (strides 1, 2, 4 with the configured kernels and paddings), each
divisible by the respective window size (32, 32, 14), so
`SparseSelfAttention.forward` never takes its error branch during the full
forward pass: `LeukemiaCvTModel.forward` always returns a successful
(non-error) result on such inputs. -/
theorem C10_standard_config_shape_compatible :
    (convDim 224 7 1 3 * convDim 224 7 1 3 = 50176) ∧
    (convDim (convDim 224 7 1 3) 3 2 1 * convDim (convDim 224 7 1 3) 3 2 1 = 12544) ∧
    (convDim (convDim (convDim 224 7 1 3) 3 2 1) 3 4 1 *
      convDim (convDim (convDim 224 7 1 3) 3 2 1) 3 4 1 = 784) ∧
    (50176 % 32 = 0) ∧ (12544 % 32 = 0) ∧ (784 % 14 = 0) ∧
    ∀ (B : ℕ) (m : LeukemiaCvTModel) (training : Bool)
      (rand : ℕ → ℕ → ℕ → ℕ → ℚ) (x : Fin B → Fin 3 → Fin 224 → Fin 224 → ℚ),
      (LeukemiaCvTModel.forward B 224 224 m training rand x).isOk = true := by
  refine ⟨by decide, by decide, by decide, by decide, by decide, by decide, ?_⟩
  intro B m training rand x
  obtain ⟨y, hy⟩ := LeukemiaCvTModel.forward_224_ok B m training rand x
  rw [hy]
  rfl

/-! ## `LeukemiaPredictor` (predict.py)

`predict_image` decodes the input bytes (PIL `Image.open` + RGB conversion,
which raises on invalid bytes — modelled by the fallible `decode` function),
preprocesses via `get_inference_transform()` — imported from a `utils`
module that is **not part of the repository snapshot**, modelled from the
spec as an arbitrary deterministic function `transform` producing the
network's expected 224 × 224 normalised 3-channel tensor — adds the batch
dimension, runs the model in inference mode (`model.eval()`, so
`training = false`), applies softmax / argmax / confidence extraction, and
catches **any** failure, returning a result that carries only an error
string (`"Error during prediction: " ++ …`); the embedding is a total
function, so nothing propagates past this boundary. -/

structure Prediction where
  prediction : String
  confidence : ℚ
  probabilities : List (String × ℚ)

inductive PredResult where
  | ok : Prediction → PredResult
  | error : String → PredResult

/-- `self.class_names` (predict.py line 12): index 0 is healthy, index 1 is
leukemia. -/
def class_names : List String := ["Healthy", "Leukemia"]

/-- `torch.argmax` over a length-2 probability vector: the index of the
first maximal value. -/
def argmax2 (f : Fin 2 → ℚ) : Fin 2 := if f 0 < f 1 then 1 else 0

/-- The post-processing of a successful forward pass (predict.py lines
28-36): softmax over the logits, argmax, the argmax label's probability as
confidence, and the zipped label-to-probability mapping. -/
def LeukemiaPredictor.postprocess (logits : Fin 2 → ℚ) : Prediction :=
  let probabilities := softmaxQ 2 logits
  let idx := argmax2 probabilities
  { prediction := class_names.getD idx.val ""
    confidence := probabilities idx
    probabilities := class_names.zip [probabilities 0, probabilities 1] }

/-- `LeukemiaPredictor.predict_image` (predict.py lines 21-39). -/
def LeukemiaPredictor.predict_image {α : Type} (decode : List ℕ → Except String α)
    (transform : α → Fin 3 → Fin 224 → Fin 224 → ℚ) (m : LeukemiaCvTModel)
    (rand : ℕ → ℕ → ℕ → ℕ → ℚ) (image_bytes : List ℕ) : PredResult :=
  match decode image_bytes with
  | Except.error e => PredResult.error ("Error during prediction: " ++ e)
  | Except.ok img =>
    match LeukemiaCvTModel.forward 1 224 224 m false rand (fun _ => transform img) with
    | Except.error e => PredResult.error ("Error during prediction: " ++ shapeErrMsg e)
    | Except.ok outputs => PredResult.ok (LeukemiaPredictor.postprocess (fun c => outputs 0 c))

/-- The probability mapping of a successful result sums to 1 within 1e-5 and
its entry at the predicted label is exactly the reported confidence; error
results are unconstrained. -/
def predOkContract : PredResult → Prop
  | PredResult.ok pr =>
      |((pr.probabilities.map Prod.snd).sum) - 1| ≤ 1 / 100000 ∧
      pr.probabilities.lookup pr.prediction = some pr.confidence
  | PredResult.error _ => True

theorem softmaxQ_two_sum (logits : Fin 2 → ℚ) :
    softmaxQ 2 logits 0 + softmaxQ 2 logits 1 = 1 := by
  have h := softmaxQ_sum 2 (by norm_num) logits
  rwa [Fin.sum_univ_two] at h

theorem postprocess_contract (logits : Fin 2 → ℚ) :
    predOkContract (PredResult.ok (LeukemiaPredictor.postprocess logits)) := by
  constructor
  · simp [LeukemiaPredictor.postprocess, class_names]
    rw [show softmaxQ 2 logits 0 + softmaxQ 2 logits 1 = 1 from softmaxQ_two_sum logits]
    norm_num
  · simp only [LeukemiaPredictor.postprocess, argmax2, class_names]
    split
    · simp +decide [List.lookup]
    · simp +decide [List.lookup]

/-- C3: for every call to the Predictor that returns without an error field
(a `PredResult.ok`), the returned probabilities mapping sums to 1 within
1e-5 tolerance (in this exact-arithmetic embedding it sums to exactly 1),
and the returned confidence equals the probability stored under the
predicted label; this holds for every decoder, preprocessing transform,
parameter set, random stream and input byte string. -/
theorem C3_probabilities_sum_confidence (α : Type) (decode : List ℕ → Except String α)
    (transform : α → Fin 3 → Fin 224 → Fin 224 → ℚ) (m : LeukemiaCvTModel)
    (rand : ℕ → ℕ → ℕ → ℕ → ℚ) (image_bytes : List ℕ) :
    predOkContract (LeukemiaPredictor.predict_image decode transform m rand image_bytes) := by
  unfold LeukemiaPredictor.predict_image
  cases hd : decode image_bytes with
  | error e => trivial
  | ok img =>
    obtain ⟨y, hy⟩ :=
      LeukemiaCvTModel.forward_224_ok 1 m false rand (fun _ => transform img)
    simp only [hy]
    exact postprocess_contract (fun c => y 0 c)

/-- C4: for every input byte string, if decoding fails (in particular when
the bytes are not a valid image) the Predictor returns a result carrying
only an error string — the caught exception's message prefixed with
"Error during prediction: " — and, `LeukemiaPredictor.predict_image` being a
total function into `PredResult`, no exception propagates past its
boundary. -/
theorem C4_decode_failure_yields_error_result (α : Type)
    (decode : List ℕ → Except String α)
    (transform : α → Fin 3 → Fin 224 → Fin 224 → ℚ) (m : LeukemiaCvTModel)
    (rand : ℕ → ℕ → ℕ → ℕ → ℚ) (image_bytes : List ℕ) (e : String)
    (h : decode image_bytes = Except.error e) :
    LeukemiaPredictor.predict_image decode transform m rand image_bytes =
      PredResult.error ("Error during prediction: " ++ e) := by
  unfold LeukemiaPredictor.predict_image
  rw [h]

/-- Every successful Predictor result is the softmax/argmax post-processing
of some logits vector; error results are unconstrained. -/
def resultFromPostprocess : PredResult → Prop
  | PredResult.ok pr => ∃ logits : Fin 2 → ℚ, pr = LeukemiaPredictor.postprocess logits
  | PredResult.error _ => True

/-- In inference mode the DropBlock is the identity whatever its random
stream (the guard of `DropBlock2D.forward` holds definitionally when
`training = false`). -/
theorem DropBlock2D.forward_inference_id (B C H W : ℕ) (m : DropBlock2D)
    (rand : ℕ → ℕ → ℕ → ℚ) (x : Fin B → Fin C → Fin H → Fin W → ℚ) :
    DropBlock2D.forward B C H W m false rand x = x := rfl

/-- In inference mode the full forward pass never consumes the random
streams. -/
theorem LeukemiaCvTModel.forward_rand_irrelevant (B H W : ℕ) (m : LeukemiaCvTModel)
    (rand1 rand2 : ℕ → ℕ → ℕ → ℕ → ℚ) (x : Fin B → Fin 3 → Fin H → Fin W → ℚ) :
    LeukemiaCvTModel.forward B H W m false rand1 x =
      LeukemiaCvTModel.forward B H W m false rand2 x := by
  unfold LeukemiaCvTModel.forward
  simp only [DropBlock2D.forward_inference_id]

/-- C8: determinism of inference — `LeukemiaPredictor.predict_image` runs
the model with `training = false` (`model.eval()`), so the DropBlock random
streams are never consumed: two invocations with identical bytes, decoder,
transform and parameters yield identical results whatever the random
streams, and likewise the bare forward pass in inference mode is
independent of the random stream for every input shape. -/
theorem C8_inference_deterministic :
    (∀ (α : Type) (decode : List ℕ → Except String α)
      (transform : α → Fin 3 → Fin 224 → Fin 224 → ℚ) (m : LeukemiaCvTModel)
      (rand1 rand2 : ℕ → ℕ → ℕ → ℕ → ℚ) (image_bytes : List ℕ),
      LeukemiaPredictor.predict_image decode transform m rand1 image_bytes =
        LeukemiaPredictor.predict_image decode transform m rand2 image_bytes) ∧
    (∀ (B H W : ℕ) (m : LeukemiaCvTModel) (rand1 rand2 : ℕ → ℕ → ℕ → ℕ → ℚ)
      (x : Fin B → Fin 3 → Fin H → Fin W → ℚ),
      LeukemiaCvTModel.forward B H W m false rand1 x =
        LeukemiaCvTModel.forward B H W m false rand2 x) := by
  refine ⟨?_, fun B H W m rand1 rand2 x =>
    LeukemiaCvTModel.forward_rand_irrelevant B H W m rand1 rand2 x⟩
  intro α decode transform m rand1 rand2 image_bytes
  unfold LeukemiaPredictor.predict_image
  cases hd : decode image_bytes with
  | error e => rfl
  | ok img =>
    have h := LeukemiaCvTModel.forward_rand_irrelevant 1 224 224 m rand1 rand2
      (fun _ => transform img)
    simp only [h]

/-- C9: the Predictor uses exactly the two fixed labels, in the
classification head's index order — index 0 = "Healthy", index 1 =
"Leukemia" — and its post-processing returns the label at the argmax index
of the softmax distribution over the logits (an index at which the
distribution is maximal), with confidence equal to that label's probability
and the full distribution reported for both labels; moreover every
successful `predict_image` result is exactly such a post-processing of the
model's logits. -/
theorem C9_labels_and_argmax :
    class_names = ["Healthy", "Leukemia"] ∧
    (∀ logits : Fin 2 → ℚ,
      (∀ j : Fin 2, softmaxQ 2 logits j ≤ softmaxQ 2 logits (argmax2 (softmaxQ 2 logits))) ∧
      (LeukemiaPredictor.postprocess logits).prediction =
        class_names.getD (argmax2 (softmaxQ 2 logits)).val "" ∧
      (LeukemiaPredictor.postprocess logits).confidence =
        softmaxQ 2 logits (argmax2 (softmaxQ 2 logits)) ∧
      (LeukemiaPredictor.postprocess logits).probabilities =
        [("Healthy", softmaxQ 2 logits 0), ("Leukemia", softmaxQ 2 logits 1)]) ∧
    (∀ (α : Type) (decode : List ℕ → Except String α)
      (transform : α → Fin 3 → Fin 224 → Fin 224 → ℚ) (m : LeukemiaCvTModel)
      (rand : ℕ → ℕ → ℕ → ℕ → ℚ) (image_bytes : List ℕ),
      resultFromPostprocess
        (LeukemiaPredictor.predict_image decode transform m rand image_bytes)) := by
  refine ⟨rfl, fun logits => ⟨?_, rfl, rfl, rfl⟩, ?_⟩
  · intro j
    unfold argmax2
    by_cases h : softmaxQ 2 logits 0 < softmaxQ 2 logits 1
    · rw [if_pos h]
      fin_cases j
      · exact le_of_lt h
      · exact le_refl _
    · rw [if_neg h]
      fin_cases j
      · exact le_refl _
      · exact not_lt.mp h
  · intro α decode transform m rand image_bytes
    unfold LeukemiaPredictor.predict_image
    cases hd : decode image_bytes with
    | error e => trivial
    | ok img =>
      obtain ⟨y, hy⟩ :=
        LeukemiaCvTModel.forward_224_ok 1 m false rand (fun _ => transform img)
      simp only [hy]
      exact ⟨fun c => y 0 c, rfl⟩

/-- All-zero learned parameters for each layer kind, used to instantiate a
concrete model. -/
def zeroEmbed (Cin Cout k : ℕ) : ConvolutionalTokenEmbedding Cin Cout k :=
  ⟨fun _ _ _ => 0, fun _ => 0, fun _ _ => 0, fun _ => 0, fun _ => 0, fun _ => 0⟩

def zeroAttn (C : ℕ) : SparseSelfAttention C :=
  ⟨0, fun _ _ => 0, fun _ => 0, fun _ _ => 0, fun _ => 0⟩

def zeroBlock (C M : ℕ) : ConvolutionalTransformerBlock C M :=
  ⟨fun _ => 0, fun _ => 0, zeroAttn C, fun _ => 0, fun _ => 0,
    fun _ _ => 0, fun _ => 0, fun _ _ => 0, fun _ => 0⟩

def zeroSE (C M : ℕ) : SEBlock C M := ⟨fun _ _ => 0, fun _ _ => 0⟩

/-- A concrete `LeukemiaCvTModel` with all-zero learned parameters (and the
source's `DropBlock2D(3, 0.1)` modules). -/
def zeroCvT : LeukemiaCvTModel :=
  ⟨zeroEmbed 3 32 7, zeroBlock 32 64, zeroSE 32 2, dropBlockStd,
    zeroEmbed 32 96 3, zeroBlock 96 192, zeroSE 96 6, dropBlockStd,
    zeroEmbed 96 192 3, zeroBlock 192 384, zeroSE 192 12, dropBlockStd,
    fun _ => 0, fun _ => 0, fun _ _ => 0, fun _ => 0⟩

theorem C4_witness :
    ((fun _ : List ℕ =>
        (Except.error "cannot identify image file" : Except String Unit)) [] =
      Except.error "cannot identify image file") ∧
    LeukemiaPredictor.predict_image
        (fun _ : List ℕ =>
          (Except.error "cannot identify image file" : Except String Unit))
        (fun _ _ _ _ => 0) zeroCvT (fun _ _ _ _ => 0) [] =
      PredResult.error ("Error during prediction: " ++ "cannot identify image file") :=
  ⟨rfl,
    C4_decode_failure_yields_error_result Unit
      (fun _ => Except.error "cannot identify image file")
      (fun _ _ _ _ => 0) zeroCvT (fun _ _ _ _ => 0) []
      "cannot identify image file" rfl⟩
